import Mathlib

/-
Verification development for the slackbot_fabric repository.

The single source file implements a Slack worker with three core pieces:

  * extract_video_id  - ordered regex rules extracting an 11-character
    YouTube identifier from a URL string;
  * process_youtube_url - a two-stage external pipeline (transcript tool,
    then summarizer) executed inside a per-run timestamped workspace, with
    try/except fault containment;
  * process_message_text - the message-level dispatcher: trigger-word
    check, unanchored regex search for an angle-bracketed URL, an
    acknowledgment post, the pipeline run, and a terminal post.

The development below is a shallow embedding of that file.  Regular
expressions are embedded as explicit backtracking-free matchers that
follow the Python `re` semantics of the two concrete patterns in the
source (leftmost search position, greedy whitespace, lazy tail before the
closing bracket, first-alternative preference).  Character classes model
the ASCII fragment of Python's classes.  External processes, the
filesystem and the clock are modelled by an explicit environment
(`RunEnv`): each subprocess invocation is an exit code, captured stdout
and stderr, or a spawn-level exception; directory creation may fail; the
per-run timestamp is a second-resolution `Timestamp` value.  Side effects
(stage invocations, file writes, directory creation, chat posts) are
collected in order in explicit traces.
-/

namespace SlackbotFabric

/-- ASCII fragment of the Python regex class `\s` used by `\s+` in the
message pattern. -/
def isPySpace (c : Char) : Bool :=
  c == ' ' || c == '\t' || c == '\n' || c == '\r' || c == '\x0b' || c == '\x0c'

/-- ASCII fragment of the character class `[\w-]` from the id patterns in
`extract_video_id`. -/
def isIdChar (c : Char) : Bool :=
  c.isAlphanum || c == '_' || c == '-'

/-- Model of `text.startswith("extract_wisdom")` and of the literal
`extract_wisdom` at the head of the message regex. -/
def isTriggerPrefix (l : List Char) : Bool :=
  List.isPrefixOf ("extract_wisdom".data) l

/-- Model of the subpattern `([\w-]{11})`: exactly eleven characters of
the class, captured, with no backtracking freedom. -/
def take11 (l : List Char) : Option (List Char) :=
  if (l.take 11).length == 11 && (l.take 11).all isIdChar then some (l.take 11)
  else none

/-- First rule of `extract_video_id`, the pattern
`(?:v=|\/)([\w-]{11})`, tried at one position. -/
def matchP1At : List Char → Option (List Char)
  | 'v' :: '=' :: rest => take11 rest
  | '/' :: rest => take11 rest
  | _ => none

/-- Second rule of `extract_video_id`, the pattern
`(?:youtu.be\/)([\w-]{11})` (the dot is the any-character class), tried
at one position. -/
def matchP2At : List Char → Option (List Char)
  | 'y' :: 'o' :: 'u' :: 't' :: 'u' :: c :: 'b' :: 'e' :: '/' :: rest =>
      if c == '\n' then none else take11 rest
  | _ => none

/-- Model of `re.search`: try the matcher at every position from the
left, returning the first success. -/
def searchAux {α : Type} (m : List Char → Option α) : List Char → Option α
  | [] => m []
  | c :: rest =>
      match m (c :: rest) with
      | some x => some x
      | none => searchAux m rest

/-- Embedding of `extract_video_id`: the two pattern rules are searched
in order and the first captured group is returned. -/
def extract_video_id (url : String) : Option String :=
  match searchAux matchP1At url.data with
  | some cs => some (String.mk cs)
  | none =>
      match searchAux matchP2At url.data with
      | some cs => some (String.mk cs)
      | none => none

/-- Variant of `extract_video_id` that applies only the first pattern
rule, used to settle the redundancy claim about the second rule. -/
def extract_video_id_firstRuleOnly (url : String) : Option String :=
  match searchAux matchP1At url.data with
  | some cs => some (String.mk cs)
  | none => none

/-- The scheme part `https?://` of the message regex: the optional `s` is
preferred when present.  Returns the consumed characters and the rest. -/
def matchScheme (l : List Char) : Option (List Char × List Char) :=
  if List.isPrefixOf ("https://".data) l then some ("https://".data, l.drop 8)
  else if List.isPrefixOf ("http://".data) l then some ("http://".data, l.drop 7)
  else none

/-- The host part `(?:www\.)?(?:youtube\.com|youtu\.be)/` of the message
regex, alternatives in backtracking preference order, each including the
mandatory following slash. -/
def matchHost (l : List Char) : Option (List Char × List Char) :=
  if List.isPrefixOf ("www.youtube.com/".data) l then some ("www.youtube.com/".data, l.drop 16)
  else if List.isPrefixOf ("www.youtu.be/".data) l then some ("www.youtu.be/".data, l.drop 13)
  else if List.isPrefixOf ("youtube.com/".data) l then some ("youtube.com/".data, l.drop 12)
  else if List.isPrefixOf ("youtu.be/".data) l then some ("youtu.be/".data, l.drop 9)
  else none

/-- Worker for `lazyTail`: at least one character is already consumed, so
the lazy quantifier first tries to close at `>` and otherwise consumes
one more non-newline character. -/
def lazyTailGo : List Char → List Char → Option (List Char × List Char)
  | _, [] => none
  | acc, c :: rest =>
      if c == '>' then some (acc.reverse, rest)
      else if c == '\n' then none
      else lazyTailGo (c :: acc) rest

/-- The tail part `.+?>` of the message regex: the shortest non-empty run
of non-newline characters followed by a closing bracket.  Returns the
captured run and the rest after the bracket. -/
def lazyTail : List Char → Option (List Char × List Char)
  | [] => none
  | c :: rest => if c == '\n' then none else lazyTailGo [c] rest

/-- The bracketed-URL body of the message regex (capture group 1):
scheme, host and lazy tail up to the closing bracket. -/
def matchUrl (l : List Char) : Option (List Char × List Char) :=
  match matchScheme l with
  | none => none
  | some (sch, r3) =>
      match matchHost r3 with
      | none => none
      | some (host, r4) =>
          match lazyTail r4 with
          | none => none
          | some (tail, rest) => some (sch ++ host ++ tail, rest)

/-- The full message pattern
`extract_wisdom\s+<(https?://(?:www\.)?(?:youtube\.com|youtu\.be)/.+?)>`
tried at one position; returns the captured URL. -/
def matchCmdAt (l : List Char) : Option String :=
  if isTriggerPrefix l then
    if ((l.drop 14).takeWhile isPySpace).isEmpty then none
    else
      match (l.drop 14).drop ((l.drop 14).takeWhile isPySpace).length with
      | '<' :: r2 =>
          match matchUrl r2 with
          | some (u, _) => some (String.mk u)
          | none => none
      | _ => none
  else none

/-- Embedding of the `re.search` call in `process_message_text`. -/
def searchCmd (l : List Char) : Option String :=
  searchAux matchCmdAt l

/-- The guard under which `process_message_text` treats a message as a
command: the trigger-word prefix test and a successful regex search. -/
def recognizedCommand (text : String) : Bool :=
  isTriggerPrefix text.data && (searchCmd text.data).isSome

/-- A well-formed angle-bracketed platform URL occurring at one position:
an opening bracket followed by the URL body of the message pattern. -/
def bracketedUrlAt : List Char → Bool
  | '<' :: r => (matchUrl r).isSome
  | _ => false

/-- Modelled from the spec: the anchored trigger pattern
`^extract_wisdom\s+<URL>$` of section 6 - command word, whitespace, a URL
enclosed in angle brackets whose host is in the accepted domain set, and
nothing before or after.  This definition follows the spec text and is
compared against the source-derived recognizer. -/
def anchoredCommandSpec (text : String) : Bool :=
  if isTriggerPrefix text.data then
    if ((text.data.drop 14).takeWhile isPySpace).isEmpty then false
    else
      match (text.data.drop 14).drop ((text.data.drop 14).takeWhile isPySpace).length with
      | '<' :: r2 =>
          match r2.reverse with
          | '>' :: urlRev =>
              match matchScheme urlRev.reverse with
              | some (_, r3) =>
                  match matchHost r3 with
                  | some (_, r4) => !r4.isEmpty && r4.all (fun c => c != '\n')
                  | none => false
              | none => false
          | _ => false
      | _ => false
  else false

/-- Second-resolution timestamp, modelling the fields that
`datetime.now().strftime("%Y%m%d_%H%M%S")` formats. -/
structure Timestamp where
  year : Nat
  month : Nat
  day : Nat
  hour : Nat
  minute : Nat
  second : Nat
deriving DecidableEq

/-- One decimal digit character. -/
def digitChar (n : Nat) : Char :=
  match n with
  | 0 => '0' | 1 => '1' | 2 => '2' | 3 => '3' | 4 => '4'
  | 5 => '5' | 6 => '6' | 7 => '7' | 8 => '8' | 9 => '9'
  | _ => '*'

/-- Fixed-width zero-padded decimal rendering, least significant digit
last, as `strftime` renders each numeric field. -/
def padDigits : Nat → Nat → List Char
  | 0, _ => []
  | w + 1, n => padDigits w (n / 10) ++ [digitChar (n % 10)]

/-- The characters of `strftime("%Y%m%d_%H%M%S")`. -/
def timestampChars (t : Timestamp) : List Char :=
  padDigits 4 t.year ++ (padDigits 2 t.month ++ (padDigits 2 t.day ++
    ('_' :: (padDigits 2 t.hour ++ (padDigits 2 t.minute ++ padDigits 2 t.second)))))

/-- The timestamp string used in the run directory name. -/
def timestampStr (t : Timestamp) : String :=
  String.mk (timestampChars t)

/-- Field bounds of a real calendar timestamp (each field fits its fixed
width in the format string). -/
def inBounds (t : Timestamp) : Prop :=
  t.year < 10000 ∧ t.month < 100 ∧ t.day < 100 ∧ t.hour < 100 ∧ t.minute < 100 ∧ t.second < 100

instance (t : Timestamp) : Decidable (inBounds t) := by
  unfold inBounds; infer_instance

/-- The fixed persistent base directory (`youtube_transcripts` under the
process working directory; modelled relative to it). -/
def WORK_DIR : String := "youtube_transcripts"

/-- The per-run workspace root `os.path.join(WORK_DIR, f"{video_id}_{timestamp}")`. -/
def run_dir (vid : String) (t : Timestamp) : String :=
  String.mk (WORK_DIR.data ++ '/' :: (vid.data ++ '_' :: timestampChars t))

/-- The stage-1 artifact path `os.path.join(run_dir, f"{video_id}.txt")`. -/
def transcript_path (vid : String) (t : Timestamp) : String :=
  String.mk ((run_dir vid t).data ++ '/' :: (vid.data ++ (".txt".data)))

/-- The stage-2 artifact path `os.path.join(run_dir, f"{video_id}_wisdom.txt")`. -/
def wisdom_path (vid : String) (t : Timestamp) : String :=
  String.mk ((run_dir vid t).data ++ '/' :: (vid.data ++ ("_wisdom.txt".data)))

/-- The transcript stage command `["yt", "--transcript", url]`, in the
space-joined form the source logs and `CalledProcessError` reports. -/
def transcript_cmd_str (url : String) : String :=
  "yt --transcript " ++ url

/-- The summarizer stage shell command
`f"cat {transcript_path} | fabric --pattern extract_wisdom"`. -/
def fabric_cmd_str (vid : String) (t : Timestamp) : String :=
  "cat " ++ transcript_path vid t ++ " | fabric --pattern extract_wisdom"

/-- ASCII fragment of Python `str.strip()`: drop leading and trailing
whitespace. -/
def pyStrip (s : String) : String :=
  String.mk (((s.data.dropWhile isPySpace).reverse.dropWhile isPySpace).reverse)

/-- Observable behaviour of one external process that did spawn: exit
code, captured standard output and standard error. -/
structure ProcBehavior where
  returncode : Int
  stdout : String
  stderr : String
deriving DecidableEq

/-- Environment of one pipeline run: the clock value formatted into the
run directory name, whether directory creation succeeds, and the
behaviour of each external tool (`Except.error` models a spawn-level
exception such as a missing executable). -/
structure RunEnv where
  timestamp : Timestamp
  mkdirOk : Bool
  transcriptSpawn : Except String ProcBehavior
  summarizerSpawn : Except String ProcBehavior

/-- The two external pipeline stages. -/
inductive Stage where
  | transcript
  | summary
deriving DecidableEq

/-- Side effects of one pipeline run, in order: stages whose
`subprocess.run` call was reached, file writes (path, content), and
created directories. -/
structure Trace where
  invoked : List Stage
  writes : List (String × String)
  mkdirs : List String
deriving DecidableEq

/-- Exceptions that the body of `process_youtube_url` can raise:
`subprocess.CalledProcessError` from a `check=True` run, or an
OS-level exception from `os.makedirs` or process spawning. -/
inductive PyError where
  | calledProcessError (cmd : String) (returncode : Int) (stderr : String)
  | osError (msg : String)
deriving DecidableEq

/-- The value of one run of `process_youtube_url`, tagged by which return
statement produced it. -/
inductive PipelineResult where
  | invalidUrl
  | success (text : String)
  | externalFailure (cmd : String) (returncode : Int)
  | unexpected (msg : String)
deriving DecidableEq

/-- A failure outcome: one produced by an exception handler rather than
the success path or the pre-pipeline rejection. -/
def isFailureOutcome : PipelineResult → Bool
  | PipelineResult.externalFailure _ _ => true
  | PipelineResult.unexpected _ => true
  | _ => false

/-- The `try` block of `process_youtube_url` (lines 51-111 of the
source): create the run directory, run the transcript tool with stdout
redirected to the stage-1 artifact, on zero exit run the summarizer
shell command, persist its raw stdout to the stage-2 artifact, and
return the stripped stdout.  A non-zero exit of either `check=True` run
raises `CalledProcessError`; spawn and mkdir faults raise OS errors. -/
def pipelineBody (env : RunEnv) (url vid : String) : Except PyError String × Trace :=
  if env.mkdirOk then
    match env.transcriptSpawn with
    | Except.error msg =>
        (Except.error (PyError.osError msg),
         Trace.mk [Stage.transcript]
           [(transcript_path vid env.timestamp, "")]
           [run_dir vid env.timestamp])
    | Except.ok tb =>
        if tb.returncode = 0 then
          match env.summarizerSpawn with
          | Except.error msg =>
              (Except.error (PyError.osError msg),
               Trace.mk [Stage.transcript, Stage.summary]
                 [(transcript_path vid env.timestamp, tb.stdout)]
                 [run_dir vid env.timestamp])
          | Except.ok sb =>
              if sb.returncode = 0 then
                (Except.ok (pyStrip sb.stdout),
                 Trace.mk [Stage.transcript, Stage.summary]
                   [(transcript_path vid env.timestamp, tb.stdout),
                    (wisdom_path vid env.timestamp, sb.stdout)]
                   [run_dir vid env.timestamp])
              else
                (Except.error (PyError.calledProcessError
                    (fabric_cmd_str vid env.timestamp) sb.returncode sb.stderr),
                 Trace.mk [Stage.transcript, Stage.summary]
                   [(transcript_path vid env.timestamp, tb.stdout)]
                   [run_dir vid env.timestamp])
        else
          (Except.error (PyError.calledProcessError
              (transcript_cmd_str url) tb.returncode tb.stderr),
           Trace.mk [Stage.transcript]
             [(transcript_path vid env.timestamp, tb.stdout)]
             [run_dir vid env.timestamp])
  else
    (Except.error (PyError.osError ("makedirs: permission denied")), Trace.mk [] [] [])

/-- The two `except` clauses of `process_youtube_url`: the first catches
`CalledProcessError`, the second catches every remaining exception. -/
def handle_exceptions : PyError → PipelineResult
  | PyError.calledProcessError cmd rc _ => PipelineResult.externalFailure cmd rc
  | PyError.osError msg => PipelineResult.unexpected msg

/-- Embedding of `process_youtube_url`: identifier extraction with early
rejection, then the `try` body with both exception handlers.  The second
component is the run's side-effect trace. -/
def process_youtube_url (env : RunEnv) (url : String) : PipelineResult × Trace :=
  match extract_video_id url with
  | none => (PipelineResult.invalidUrl, Trace.mk [] [] [])
  | some vid =>
      match pipelineBody env url vid with
      | (Except.ok text, tr) => (PipelineResult.success text, tr)
      | (Except.error e, tr) => (handle_exceptions e, tr)

/-- The string each `PipelineResult` renders to: exactly the strings the
four return statements of `process_youtube_url` produce. -/
def resultText : PipelineResult → String
  | PipelineResult.invalidUrl => "Invalid YouTube URL format"
  | PipelineResult.success t => t
  | PipelineResult.externalFailure cmd rc =>
      "Error processing video: Command \x27" ++ cmd ++
        "\x27 returned non-zero exit status " ++ toString rc ++ "."
  | PipelineResult.unexpected msg => "Unexpected error: " ++ msg

/-- The acknowledgment message posted right after a command is accepted. -/
def ackText : String := "Processing your request... :hourglass_flowing_sand:"

/-- The usage hint posted when the trigger word matched but the regex
search failed. -/
def usageText : String :=
  "Please provide a YouTube URL wrapped in angle brackets, like this:\nextract_wisdom <https://youtube.com/...>"

/-- The terminal message wrapping a pipeline result. -/
def wisdomMessage (r : PipelineResult) : String :=
  "Here\x27s the extracted wisdom:\n```\n" ++ resultText r ++ "\n```"

/-- Observable events of one dispatch of `process_message_text`, in
program order: chat posts, the start of the pipeline call, and the
pipeline trace's stage invocations. -/
inductive BotEvent where
  | posted (channel text : String)
  | pipelineStarted (url : String)
  | stageInvoked (s : Stage)
deriving DecidableEq

/-- Embedding of `process_message_text`: no trigger prefix means no
effect at all; a trigger prefix with a failed search posts only the
usage hint; an accepted command posts the acknowledgment, runs the
pipeline, and posts the terminal message. -/
def process_message_text (env : RunEnv) (text channel : String) : List BotEvent :=
  if isTriggerPrefix text.data then
    match searchCmd text.data with
    | some url =>
        BotEvent.posted channel ackText
          :: BotEvent.pipelineStarted url
          :: ((process_youtube_url env url).2.invoked.map BotEvent.stageInvoked
              ++ [BotEvent.posted channel (wisdomMessage (process_youtube_url env url).1)])
    | none => [BotEvent.posted channel usageText]
  else []

/-- The chat messages among a dispatch's events, in order. -/
def postedMessages (evs : List BotEvent) : List (String × String) :=
  evs.filterMap (fun e =>
    match e with
    | BotEvent.posted c t => some (c, t)
    | _ => none)

/-- Concrete fixture: a run environment in which both external stages
spawn and exit with code zero. -/
def envSuccess : RunEnv :=
  RunEnv.mk (Timestamp.mk 2024 1 2 3 4 5) true
    (Except.ok (ProcBehavior.mk 0 ("t-out") ("")))
    (Except.ok (ProcBehavior.mk 0 (" wisdom \n") ("")))

/-- Concrete fixture: a run environment whose transcript tool exits with
code 2. -/
def envTranscriptFail : RunEnv :=
  RunEnv.mk (Timestamp.mk 2024 1 2 3 4 5) true
    (Except.ok (ProcBehavior.mk 2 ("partial") ("boom")))
    (Except.ok (ProcBehavior.mk 0 ("w") ("")))

/-- Concrete fixture: a run environment in which creating the workspace
directory fails. -/
def envMkdirFail : RunEnv :=
  RunEnv.mk (Timestamp.mk 2024 1 2 3 4 5) false
    (Except.ok (ProcBehavior.mk 0 ("") ("")))
    (Except.ok (ProcBehavior.mk 0 ("") ("")))

end SlackbotFabric

namespace SlackbotFabric

theorem take11_eq_some {l cs : List Char} (h : take11 l = some cs) :
    cs.length = 11 ∧ cs.all isIdChar = true := by
  unfold take11 at h
  split at h
  · rename_i hc
    cases h
    simp only [Bool.and_eq_true, beq_iff_eq] at hc
    exact ⟨hc.1, hc.2⟩
  · exact absurd h (by simp)

theorem matchP1At_eq_some {l cs : List Char} (h : matchP1At l = some cs) :
    cs.length = 11 ∧ cs.all isIdChar = true := by
  unfold matchP1At at h
  split at h
  · exact take11_eq_some h
  · exact take11_eq_some h
  · exact absurd h (by simp)

theorem matchP2At_eq_some {l cs : List Char} (h : matchP2At l = some cs) :
    ∃ c rest, l = 'y' :: 'o' :: 'u' :: 't' :: 'u' :: c :: 'b' :: 'e' :: '/' :: rest ∧
      take11 rest = some cs := by
  unfold matchP2At at h
  split at h
  · rename_i c rest
    split at h
    · exact absurd h (by simp)
    · exact ⟨c, rest, rfl, h⟩
  · exact absurd h (by simp)

theorem searchAux_eq_some {α : Type} (m : List Char → Option α) :
    ∀ (l : List Char) (x : α), searchAux m l = some x →
      ∃ l', l' <:+ l ∧ m l' = some x := by
  intro l
  induction l with
  | nil =>
      intro x h
      exact ⟨[], List.suffix_refl _, h⟩
  | cons c rest ih =>
      intro x h
      rw [searchAux] at h
      cases hm : m (c :: rest) with
      | some y =>
          rw [hm] at h
          cases h
          exact ⟨c :: rest, List.suffix_refl _, hm⟩
      | none =>
          rw [hm] at h
          obtain ⟨l', hs, hm'⟩ := ih x h
          exact ⟨l', hs.trans (List.suffix_cons c rest), hm'⟩

theorem searchAux_eq_none {α : Type} (m : List Char → Option α) :
    ∀ l : List Char, searchAux m l = none →
      ∀ l', l' <:+ l → m l' = none := by
  intro l
  induction l with
  | nil =>
      intro h l' hl'
      rw [List.suffix_nil] at hl'
      subst hl'
      exact h
  | cons c rest ih =>
      intro h l' hl'
      rw [searchAux] at h
      cases hm : m (c :: rest) with
      | some y => rw [hm] at h; exact absurd h (by simp)
      | none =>
          rw [hm] at h
          rcases List.suffix_cons_iff.mp hl' with heq | hsuf
          · subst heq; exact hm
          · exact ih h l' hsuf

theorem searchAux_isSome_iff {α : Type} (m : List Char → Option α) (l : List Char) :
    (searchAux m l).isSome = true ↔ ∃ l', l' <:+ l ∧ (m l').isSome = true := by
  constructor
  · intro h
    cases hs : searchAux m l with
    | none => rw [hs] at h; exact absurd h (by simp)
    | some x =>
        obtain ⟨l', hsuf, hm⟩ := searchAux_eq_some m l x hs
        exact ⟨l', hsuf, by rw [hm]; rfl⟩
  · rintro ⟨l', hsuf, hm⟩
    cases hs : searchAux m l with
    | some x => rfl
    | none =>
        have := searchAux_eq_none m l hs l' hsuf
        rw [this] at hm
        exact absurd hm (by simp)

theorem matchCmdAt_eq_some {l : List Char} {u : String} (h : matchCmdAt l = some u) :
    ∃ r2 : List Char, ('<' :: r2) <:+ l ∧ (matchUrl r2).isSome = true := by
  unfold matchCmdAt at h
  split at h
  · split at h
    · exact absurd h (by simp)
    · split at h
      · rename_i r2 heq
        refine ⟨r2, ?_, ?_⟩
        · rw [← heq]
          exact (List.drop_suffix _ _).trans (List.drop_suffix _ _)
        · split at h
          · rename_i hu
            rw [hu]; rfl
          · exact absurd h (by simp)
      · exact absurd h (by simp)
  · exact absurd h (by simp)

theorem postedMessages_nil : postedMessages [] = [] := rfl

theorem postedMessages_stageMap (l : List Stage) :
    postedMessages (l.map BotEvent.stageInvoked) = [] := by
  induction l with
  | nil => rfl
  | cons s rest ih => simp [postedMessages]

theorem postedMessages_cons_posted (c t : String) (evs : List BotEvent) :
    postedMessages (BotEvent.posted c t :: evs) = (c, t) :: postedMessages evs := by
  simp [postedMessages]

theorem postedMessages_cons_started (u : String) (evs : List BotEvent) :
    postedMessages (BotEvent.pipelineStarted u :: evs) = postedMessages evs := by
  simp [postedMessages]

theorem postedMessages_append (a b : List BotEvent) :
    postedMessages (a ++ b) = postedMessages a ++ postedMessages b := by
  simp [postedMessages]

theorem padDigits_length (w : Nat) : ∀ n : Nat, (padDigits w n).length = w := by
  induction w with
  | zero => intro n; rfl
  | succ w ih => intro n; simp [padDigits, ih]

theorem digitChar_inj (m n : Nat) (hm : m < 10) (hn : n < 10)
    (h : digitChar m = digitChar n) : m = n := by
  have key : ∀ a b : Fin 10, digitChar a.val = digitChar b.val → a = b := by decide
  have := key ⟨m, hm⟩ ⟨n, hn⟩ h
  exact congrArg Fin.val this

theorem padDigits_inj (w : Nat) :
    ∀ m n : Nat, m < 10 ^ w → n < 10 ^ w → padDigits w m = padDigits w n → m = n := by
  induction w with
  | zero =>
      intro m n hm hn _
      simp only [pow_zero, Nat.lt_one_iff] at hm hn
      rw [hm, hn]
  | succ w ih =>
      intro m n hm hn h
      simp only [padDigits] at h
      obtain ⟨h1, h2⟩ := List.append_inj h (by rw [padDigits_length, padDigits_length])
      have hmod : m % 10 = n % 10 := by
        apply digitChar_inj _ _ (Nat.mod_lt _ (by norm_num)) (Nat.mod_lt _ (by norm_num))
        simpa using h2
      have hpow : 10 * 10 ^ w = 10 ^ (w + 1) := by
        rw [pow_succ, Nat.mul_comm]
      have hdivlt : m / 10 < 10 ^ w := by
        apply Nat.div_lt_of_lt_mul
        rw [hpow]
        exact hm
      have hdivlt' : n / 10 < 10 ^ w := by
        apply Nat.div_lt_of_lt_mul
        rw [hpow]
        exact hn
      have hdiv : m / 10 = n / 10 := ih _ _ hdivlt hdivlt' h1
      omega

theorem timestampChars_inj (t₁ t₂ : Timestamp) (h₁ : inBounds t₁) (h₂ : inBounds t₂)
    (h : timestampChars t₁ = timestampChars t₂) : t₁ = t₂ := by
  obtain ⟨hy₁, hmo₁, hd₁, hh₁, hmi₁, hs₁⟩ := h₁
  obtain ⟨hy₂, hmo₂, hd₂, hh₂, hmi₂, hs₂⟩ := h₂
  simp only [timestampChars] at h
  obtain ⟨ey, h⟩ := List.append_inj h (by rw [padDigits_length, padDigits_length])
  obtain ⟨emo, h⟩ := List.append_inj h (by rw [padDigits_length, padDigits_length])
  obtain ⟨ed, h⟩ := List.append_inj h (by rw [padDigits_length, padDigits_length])
  rw [List.cons.injEq] at h
  obtain ⟨eh, h⟩ := List.append_inj h.2 (by rw [padDigits_length, padDigits_length])
  obtain ⟨emi, es⟩ := List.append_inj h (by rw [padDigits_length, padDigits_length])
  have hy : t₁.year = t₂.year :=
    padDigits_inj 4 _ _ (by norm_num [hy₁]) (by norm_num [hy₂]) ey
  have hmo : t₁.month = t₂.month :=
    padDigits_inj 2 _ _ (by norm_num [hmo₁]) (by norm_num [hmo₂]) emo
  have hd : t₁.day = t₂.day :=
    padDigits_inj 2 _ _ (by norm_num [hd₁]) (by norm_num [hd₂]) ed
  have hh : t₁.hour = t₂.hour :=
    padDigits_inj 2 _ _ (by norm_num [hh₁]) (by norm_num [hh₂]) eh
  have hmi : t₁.minute = t₂.minute :=
    padDigits_inj 2 _ _ (by norm_num [hmi₁]) (by norm_num [hmi₂]) emi
  have hs : t₁.second = t₂.second :=
    padDigits_inj 2 _ _ (by norm_num [hs₁]) (by norm_num [hs₂]) es
  cases t₁
  cases t₂
  simp_all

end SlackbotFabric

namespace SlackbotFabric

/-- Claim C1: for every accepted command, if the transcript stage's
external process exits non-zero, `process_youtube_url` returns the
failure outcome carrying the transcript stage's command (the
`CalledProcessError` of the `yt --transcript` invocation) and its exit
code, and the summarizer stage is never invoked: the run's trace records
exactly the transcript invocation. -/
theorem c1_transcript_failure_stops_pipeline
    (env : RunEnv) (url vid : String) (tb : ProcBehavior)
    (hvid : extract_video_id url = some vid)
    (hmk : env.mkdirOk = true)
    (hsp : env.transcriptSpawn = Except.ok tb)
    (hrc : tb.returncode ≠ 0) :
    process_youtube_url env url =
      (PipelineResult.externalFailure (transcript_cmd_str url) tb.returncode,
       Trace.mk [Stage.transcript]
         [(transcript_path vid env.timestamp, tb.stdout)]
         [run_dir vid env.timestamp])
    ∧ Stage.summary ∉ (process_youtube_url env url).2.invoked := by
  have hbody : pipelineBody env url vid =
      (Except.error (PyError.calledProcessError (transcript_cmd_str url) tb.returncode tb.stderr),
       Trace.mk [Stage.transcript]
         [(transcript_path vid env.timestamp, tb.stdout)]
         [run_dir vid env.timestamp]) := by
    simp [pipelineBody, hmk, hsp, hrc]
  have hres : process_youtube_url env url =
      (PipelineResult.externalFailure (transcript_cmd_str url) tb.returncode,
       Trace.mk [Stage.transcript]
         [(transcript_path vid env.timestamp, tb.stdout)]
         [run_dir vid env.timestamp]) := by
    simp [process_youtube_url, hvid, hbody, handle_exceptions]
  refine ⟨hres, ?_⟩
  rw [hres]
  show Stage.summary ∉ [Stage.transcript]
  decide

/-- Claim C1 witness at a concrete failing transcript stub. -/
theorem c1_transcript_failure_stops_pipeline_witness :
    Stage.summary ∉
      (process_youtube_url envTranscriptFail ("https://youtu.be/dQw4w9WgXcQ")).2.invoked :=
  (c1_transcript_failure_stops_pipeline envTranscriptFail
    ("https://youtu.be/dQw4w9WgXcQ") ("dQw4w9WgXcQ")
    (ProcBehavior.mk 2 ("partial") ("boom"))
    (by decide) rfl rfl (by decide)).2

/-- Claim C2: every exception the pipeline body can raise - workspace
allocation failure, spawn failure of either tool, or a non-zero exit
under `check=True` - is caught by the two handlers and mapped to a
failure outcome; `process_youtube_url` returns that outcome with the
partial trace instead of propagating the exception. -/
theorem c2_exceptions_mapped_to_failure
    (env : RunEnv) (url vid : String) (e : PyError) (tr : Trace)
    (hvid : extract_video_id url = some vid)
    (hbody : pipelineBody env url vid = (Except.error e, tr)) :
    process_youtube_url env url = (handle_exceptions e, tr)
    ∧ isFailureOutcome (handle_exceptions e) = true := by
  constructor
  · simp [process_youtube_url, hvid, hbody]
  · cases e <;> rfl

/-- Claim C2 witness at a concrete environment whose workspace
allocation fails. -/
theorem c2_exceptions_mapped_to_failure_witness :
    process_youtube_url envMkdirFail ("https://youtu.be/dQw4w9WgXcQ")
      = (handle_exceptions (PyError.osError ("makedirs: permission denied")), Trace.mk [] [] [])
    ∧ isFailureOutcome (handle_exceptions (PyError.osError ("makedirs: permission denied"))) = true :=
  c2_exceptions_mapped_to_failure envMkdirFail ("https://youtu.be/dQw4w9WgXcQ")
    ("dQw4w9WgXcQ") (PyError.osError ("makedirs: permission denied")) (Trace.mk [] [] [])
    (by decide) rfl

/-- Claim C3: when both external stages exit zero, `process_youtube_url`
returns the success outcome whose text is the summarizer's stdout with
leading and trailing whitespace stripped, and the run's trace records the
untrimmed stdout persisted at the stage-2 artifact path inside the run
workspace. -/
theorem c3_success_trims_and_persists
    (env : RunEnv) (url vid : String) (tb sb : ProcBehavior)
    (hvid : extract_video_id url = some vid)
    (hmk : env.mkdirOk = true)
    (ht : env.transcriptSpawn = Except.ok tb)
    (ht0 : tb.returncode = 0)
    (hs : env.summarizerSpawn = Except.ok sb)
    (hs0 : sb.returncode = 0) :
    process_youtube_url env url =
      (PipelineResult.success (pyStrip sb.stdout),
       Trace.mk [Stage.transcript, Stage.summary]
         [(transcript_path vid env.timestamp, tb.stdout),
          (wisdom_path vid env.timestamp, sb.stdout)]
         [run_dir vid env.timestamp])
    ∧ (wisdom_path vid env.timestamp, sb.stdout) ∈ (process_youtube_url env url).2.writes := by
  have hres : process_youtube_url env url =
      (PipelineResult.success (pyStrip sb.stdout),
       Trace.mk [Stage.transcript, Stage.summary]
         [(transcript_path vid env.timestamp, tb.stdout),
          (wisdom_path vid env.timestamp, sb.stdout)]
         [run_dir vid env.timestamp]) := by
    simp [process_youtube_url, pipelineBody, hvid, hmk, ht, ht0, hs, hs0]
  refine ⟨hres, ?_⟩
  rw [hres]
  simp

/-- Claim C3 witness with concrete succeeding stubs. -/
theorem c3_success_trims_and_persists_witness :
    (wisdom_path ("dQw4w9WgXcQ") (Timestamp.mk 2024 1 2 3 4 5), " wisdom \n") ∈
      (process_youtube_url envSuccess ("https://youtu.be/dQw4w9WgXcQ")).2.writes :=
  (c3_success_trims_and_persists envSuccess ("https://youtu.be/dQw4w9WgXcQ")
    ("dQw4w9WgXcQ") (ProcBehavior.mk 0 ("t-out") ("")) (ProcBehavior.mk 0 (" wisdom \n") (""))
    (by decide) rfl rfl rfl rfl rfl).2

/-- Claim C4: a message whose text does not start with the trigger word
produces no events at all (zero chat posts); a message that starts with
the trigger word but contains no well-formed angle-bracketed platform URL
at any position produces exactly one chat post, the usage hint. -/
theorem c4_noncommand_silent_malformed_usage
    (env : RunEnv) (text channel : String) :
    (isTriggerPrefix text.data = false → process_message_text env text channel = [])
    ∧ (isTriggerPrefix text.data = true →
        (text.data.tails.all fun l' => !bracketedUrlAt l') = true →
        process_message_text env text channel = [BotEvent.posted channel usageText]) := by
  constructor
  · intro h
    simp [process_message_text, h]
  · intro ht hno
    have hnone : searchCmd text.data = none := by
      cases hs : searchCmd text.data with
      | none => rfl
      | some u =>
          exfalso
          obtain ⟨l₀, hsuf, hm⟩ := searchAux_eq_some matchCmdAt text.data u hs
          obtain ⟨r2, hsuf2, hurl⟩ := matchCmdAt_eq_some hm
          have hmem : ('<' :: r2) ∈ text.data.tails :=
            (List.mem_tails _ _).mpr (hsuf2.trans hsuf)
          have hfalse := List.all_eq_true.mp hno _ hmem
          rw [show bracketedUrlAt ('<' :: r2) = (matchUrl r2).isSome from rfl] at hfalse
          rw [hurl] at hfalse
          exact absurd hfalse (by decide)
    simp [process_message_text, ht, hnone]

/-- Claim C4 witness: a non-command posts nothing; a malformed command
posts exactly the usage hint. -/
theorem c4_noncommand_silent_malformed_usage_witness :
    process_message_text envSuccess ("hello there") ("C") = []
    ∧ process_message_text envSuccess ("extract_wisdom oops") ("C")
        = [BotEvent.posted ("C") usageText] :=
  ⟨(c4_noncommand_silent_malformed_usage envSuccess ("hello there") ("C")).1 (by decide),
   (c4_noncommand_silent_malformed_usage envSuccess ("extract_wisdom oops") ("C")).2
     (by decide) (by decide)⟩

/-- Claim C5 counterexample: for the message
`extract_wisdom <https://youtube.com/playlist>` the wrapper regex
matches but no identifier can be extracted; the code then posts the
acknowledgment and a success-formatted terminal message containing
`Invalid YouTube URL format`, and never posts the usage/syntax hint -
refuting the claim that the user is told the correct syntax via a
rejection/usage message. -/
theorem c5_counterexample :
    postedMessages (process_message_text envSuccess
        ("extract_wisdom <https://youtube.com/playlist>") ("C"))
      = [(("C"), ackText),
         (("C"), "Here\x27s the extracted wisdom:\n```\nInvalid YouTube URL format\n```")]
    ∧ (("C"), usageText) ∉ postedMessages (process_message_text envSuccess
        ("extract_wisdom <https://youtube.com/playlist>") ("C")) := by
  exact ⟨by decide, by decide⟩

/-- Claim C5 (amended): when the trigger and the bracketed-URL wrapper
match but no identifier can be extracted from the URL, the pipeline
rejects before any workspace or external work (empty trace), and the
failure text `Invalid YouTube URL format` is delivered inside the
standard result template after the acknowledgment; no usage/syntax
message is posted. -/
theorem c5_amended_invalid_id_in_result_template
    (env : RunEnv) (text channel url : String)
    (ht : isTriggerPrefix text.data = true)
    (hs : searchCmd text.data = some url)
    (hx : extract_video_id url = none) :
    process_youtube_url env url = (PipelineResult.invalidUrl, Trace.mk [] [] [])
    ∧ process_message_text env text channel =
        [BotEvent.posted channel ackText,
         BotEvent.pipelineStarted url,
         BotEvent.posted channel (wisdomMessage PipelineResult.invalidUrl)] := by
  have hp : process_youtube_url env url = (PipelineResult.invalidUrl, Trace.mk [] [] []) := by
    simp [process_youtube_url, hx]
  refine ⟨hp, ?_⟩
  simp [process_message_text, ht, hs, hp]

/-- Claim C5 (amended) witness at the concrete malformed URL. -/
theorem c5_amended_invalid_id_in_result_template_witness :
    process_message_text envSuccess
        ("extract_wisdom <https://youtube.com/playlist>") ("C") =
      [BotEvent.posted ("C") ackText,
       BotEvent.pipelineStarted ("https://youtube.com/playlist"),
       BotEvent.posted ("C") (wisdomMessage PipelineResult.invalidUrl)] :=
  (c5_amended_invalid_id_in_result_template envSuccess
    ("extract_wisdom <https://youtube.com/playlist>") ("C")
    ("https://youtube.com/playlist") (by decide) (by decide) (by decide)).2

/-- Claim C6: for every accepted command the dispatch's event list is
exactly the acknowledgment post, then the pipeline start, then the
pipeline's stage invocations, then the terminal post; hence exactly two
chat messages are posted, with the acknowledgment strictly before the
pipeline start and strictly before the terminal message. -/
theorem c6_ack_before_pipeline_two_posts
    (env : RunEnv) (text channel url : String)
    (ht : isTriggerPrefix text.data = true)
    (hs : searchCmd text.data = some url) :
    process_message_text env text channel =
      BotEvent.posted channel ackText
        :: BotEvent.pipelineStarted url
        :: ((process_youtube_url env url).2.invoked.map BotEvent.stageInvoked
            ++ [BotEvent.posted channel (wisdomMessage (process_youtube_url env url).1)])
    ∧ postedMessages (process_message_text env text channel)
        = [(channel, ackText), (channel, wisdomMessage (process_youtube_url env url).1)] := by
  have hev : process_message_text env text channel =
      BotEvent.posted channel ackText
        :: BotEvent.pipelineStarted url
        :: ((process_youtube_url env url).2.invoked.map BotEvent.stageInvoked
            ++ [BotEvent.posted channel (wisdomMessage (process_youtube_url env url).1)]) := by
    simp [process_message_text, ht, hs]
  refine ⟨hev, ?_⟩
  rw [hev, postedMessages_cons_posted, postedMessages_cons_started,
    postedMessages_append, postedMessages_stageMap]
  simp [postedMessages]

/-- Claim C6 witness at a concrete accepted command. -/
theorem c6_ack_before_pipeline_two_posts_witness :
    postedMessages (process_message_text envSuccess
        ("extract_wisdom <https://youtu.be/dQw4w9WgXcQ>") ("C"))
      = [(("C"), ackText),
         (("C"), wisdomMessage
            (process_youtube_url envSuccess ("https://youtu.be/dQw4w9WgXcQ")).1)] :=
  (c6_ack_before_pipeline_two_posts envSuccess
    ("extract_wisdom <https://youtu.be/dQw4w9WgXcQ>") ("C")
    ("https://youtu.be/dQw4w9WgXcQ") (by decide) (by decide)).2

/-- Claim C7 counterexample: the message
`extract_wisdom <https://youtu.be/dQw4w9WgXcQ> please` carries trailing
content after the closing bracket, so it does not match the anchored
spec pattern, yet the code recognizes it as a command - refuting the
claimed equivalence with the anchored full-text pattern. -/
theorem c7_counterexample :
    recognizedCommand ("extract_wisdom <https://youtu.be/dQw4w9WgXcQ> please") = true
    ∧ anchoredCommandSpec ("extract_wisdom <https://youtu.be/dQw4w9WgXcQ> please") = false := by
  exact ⟨by decide, by decide⟩

/-- Claim C7 (amended): a message is recognized as a command exactly when
its text starts with the trigger word and the unanchored pattern
(trigger word, whitespace, angle-bracketed platform URL) matches at some
position, i.e. some suffix of the text matches it; content before a later
trigger occurrence and trailing content after the closing bracket are
permitted. -/
theorem c7_amended_unanchored_recognition (text : String) :
    recognizedCommand text = true ↔
      (isTriggerPrefix text.data = true ∧
        ∃ l', l' <:+ text.data ∧ (matchCmdAt l').isSome = true) := by
  unfold recognizedCommand searchCmd
  rw [Bool.and_eq_true]
  constructor
  · rintro ⟨h1, h2⟩
    exact ⟨h1, (searchAux_isSome_iff matchCmdAt text.data).mp h2⟩
  · rintro ⟨h1, h2⟩
    exact ⟨h1, (searchAux_isSome_iff matchCmdAt text.data).mpr h2⟩

/-- Claim C8: the workspace root is the fixed base directory joined with
the identifier and the second-resolution timestamp, so two allocations
for identifiers of equal length (in particular the same identifier) at
timestamps that differ in any second-resolution field yield distinct
directory paths. -/
theorem c8_distinct_timestamps_distinct_workspaces
    (vid₁ vid₂ : String) (t₁ t₂ : Timestamp)
    (hlen : vid₁.length = vid₂.length)
    (hb₁ : inBounds t₁) (hb₂ : inBounds t₂)
    (hne : t₁ ≠ t₂) :
    run_dir vid₁ t₁ ≠ run_dir vid₂ t₂ := by
  intro h
  apply hne
  have h' : WORK_DIR.data ++ '/' :: (vid₁.data ++ '_' :: timestampChars t₁)
      = WORK_DIR.data ++ '/' :: (vid₂.data ++ '_' :: timestampChars t₂) :=
    congrArg String.data h
  have h2 := List.append_cancel_left h'
  rw [List.cons.injEq] at h2
  have hlen' : vid₁.data.length = vid₂.data.length := hlen
  obtain ⟨hv, ht⟩ := List.append_inj h2.2 hlen'
  rw [List.cons.injEq] at ht
  exact timestampChars_inj t₁ t₂ hb₁ hb₂ ht.2

/-- Claim C8 witness: same identifier, timestamps one second apart. -/
theorem c8_distinct_timestamps_distinct_workspaces_witness :
    run_dir ("dQw4w9WgXcQ") (Timestamp.mk 2024 1 2 3 4 5)
      ≠ run_dir ("dQw4w9WgXcQ") (Timestamp.mk 2024 1 2 3 4 6) :=
  c8_distinct_timestamps_distinct_workspaces
    ("dQw4w9WgXcQ") ("dQw4w9WgXcQ")
    (Timestamp.mk 2024 1 2 3 4 5) (Timestamp.mk 2024 1 2 3 4 6)
    rfl (by decide) (by decide) (by decide)

/-- Claim C9: whenever `extract_video_id` returns an identifier, it is
non-empty and consists of exactly eleven characters of the
word-character-or-hyphen class; the extractor is a total function, so it
has no failure mode beyond returning the no-match signal. -/
theorem c9_extractor_id_shape (url s : String)
    (h : extract_video_id url = some s) :
    0 < s.length ∧ s.length = 11 ∧ s.data.all isIdChar = true := by
  unfold extract_video_id at h
  cases h1 : searchAux matchP1At url.data with
  | some cs =>
      rw [h1] at h
      cases h
      obtain ⟨l', _, hm⟩ := searchAux_eq_some matchP1At url.data cs h1
      obtain ⟨hl, ha⟩ := matchP1At_eq_some hm
      refine ⟨?_, ?_, ?_⟩
      · show 0 < cs.length
        omega
      · exact hl
      · exact ha
  | none =>
      rw [h1] at h
      cases h2 : searchAux matchP2At url.data with
      | some cs =>
          rw [h2] at h
          cases h
          obtain ⟨l', _, hm⟩ := searchAux_eq_some matchP2At url.data cs h2
          obtain ⟨c, rest, _, ht⟩ := matchP2At_eq_some hm
          obtain ⟨hl, ha⟩ := take11_eq_some ht
          refine ⟨?_, ?_, ?_⟩
          · show 0 < cs.length
            omega
          · exact hl
          · exact ha
      | none =>
          rw [h2] at h
          exact absurd h (by simp)

/-- Claim C9 witness at a concrete short-form URL. -/
theorem c9_extractor_id_shape_witness :
    0 < ("dQw4w9WgXcQ").length ∧ ("dQw4w9WgXcQ").length = 11
    ∧ ("dQw4w9WgXcQ").data.all isIdChar = true :=
  c9_extractor_id_shape ("https://youtu.be/dQw4w9WgXcQ") ("dQw4w9WgXcQ") (by decide)

/-- Claim C10: the second pattern rule of `extract_video_id` is
redundant: any position matched by the short-domain rule exposes a slash
followed by eleven class characters, which the first rule also matches,
so the full extractor agrees with the first-rule-only variant on every
input. -/
theorem c10_second_rule_redundant (url : String) :
    extract_video_id url = extract_video_id_firstRuleOnly url := by
  unfold extract_video_id extract_video_id_firstRuleOnly
  cases h1 : searchAux matchP1At url.data with
  | some cs => rfl
  | none =>
      cases h2 : searchAux matchP2At url.data with
      | none => rfl
      | some cs =>
          exfalso
          obtain ⟨l₀, hsuf, hm⟩ := searchAux_eq_some matchP2At url.data cs h2
          obtain ⟨c, rest, hl₀, ht⟩ := matchP2At_eq_some hm
          have hsuf2 : ('/' :: rest) <:+ l₀ := by
            rw [hl₀]
            exact ⟨['y', 'o', 'u', 't', 'u', c, 'b', 'e'], rfl⟩
          have hp1 : matchP1At ('/' :: rest) = some cs := by
            rw [show matchP1At ('/' :: rest) = take11 rest from rfl]
            exact ht
          have hnone := searchAux_eq_none matchP1At url.data h1
            ('/' :: rest) (hsuf2.trans hsuf)
          rw [hp1] at hnone
          exact absurd hnone (by simp)

end SlackbotFabric
